import Mathlib

/-!
Shallow embedding of the Connect-Four robot actuator core
(`src/connect4game/robot/robot.py`): the session counters, the belt and
inventory operations, the retrying action executor, the gripper fault
recovery loop and the scoped slow-speed mode.  State updates and the
order of hardware events are transcribed from the Python source; physical
motion and locking are represented by an event trace.
-/

set_option maxRecDepth 4000

namespace C4Robot

/-- Conveyor belt directions (pyniryo2 `ConveyorDirection`). -/
inductive ConveyorDirection
  | forward
  | backward
deriving DecidableEq

/-- Gripper actions (`enums.GripperAction`). -/
inductive GripperAction
  | OPEN
  | CLOSE
deriving DecidableEq

/-- Symbolic names for the pose constants of the robot module
(`__better_home_pos`, `__mag_pos_bef`, `__mag_pos`, `__index0_pos`,
`__index1_pos` and the two entries of `__board_pos[0]`). -/
inductive Pos
  | home
  | magBef
  | mag
  | index0
  | index1
  | boardApproach
  | boardDrop
deriving DecidableEq

/-- Observable hardware events of one run, in program order. -/
inductive Ev
  | acquireBelt
  | releaseBelt
  | movePos (p : Pos)
  | setStack (v : ℤ)
  | setPiece (v : ℤ)
  | grip (a : GripperAction)
  | setVel (v : ℤ)
  | conveyorRun (d : ConveyorDirection)
  | settleWait
  | conveyorStop
  | spawnAdvance (d : ConveyorDirection)
  | promptOperator
deriving DecidableEq

/-- The mutable session state owned by the `Robot` instance:
`__current_piece_count`, `__current_stack_count`, `__board_calibrated`
and `__magazine_ready`. -/
structure RobotState where
  current_piece_count : ℤ
  current_stack_count : ℤ
  board_calibrated : Bool
  magazine_ready : Bool
deriving DecidableEq

/-- State right after `__init__`: both counters zero, nothing calibrated. -/
def freshState : RobotState := ⟨0, 0, false, false⟩

/-- Belt slot chosen while placing a piece: source line 181,
`self.__index0_pos if self.__current_stack_count==0 else self.__index1_pos`. -/
def loadTargetSlot (stack : ℤ) : ℤ := if stack = 0 then 0 else 1

/-- Belt slot chosen while grabbing a piece: source line 204,
`self.__index0_pos if self.__current_stack_count==1 else self.__index1_pos`. -/
def grabTargetSlot (stack : ℤ) : ℤ := if stack = 1 then 0 else 1

/-- Pose corresponding to the slot chosen during placement. -/
def loadSlotPos (stack : ℤ) : Pos :=
  if loadTargetSlot stack = 0 then Pos.index0 else Pos.index1

/-- Pose corresponding to the slot chosen during pickup. -/
def grabSlotPos (stack : ℤ) : Pos :=
  if grabTargetSlot stack = 0 then Pos.index0 else Pos.index1

/-- Failure kinds that a wrapped robot action body can raise. -/
inductive ExecFault
  | contractFault
  | otherFault
deriving DecidableEq

/-- A wrapped body for `__slow_arm_control`: the hardware events it
performed before returning or raising, and its outcome. -/
structure BodyRun (α : Type) where
  events : List Ev
  result : Except ExecFault α

/-- The `__slow_arm_control` context manager: sets the arm max velocity to
the slow value, runs the body, and the `finally` block restores velocity
to 100 regardless of the body's outcome, which is propagated unchanged. -/
def slow_arm_control {α : Type} (slow_speed : ℤ) (body : BodyRun α) : BodyRun α :=
  ⟨Ev.setVel slow_speed :: body.events ++ [Ev.setVel 100], body.result⟩

/-- Events of a `with self.__slow_arm_control():` block with the default
slow speed of 30. -/
def slowWrap (inner : List Ev) : List Ev :=
  (slow_arm_control (α := Unit) 30 ⟨inner, Except.ok ()⟩).events

/-- Arm max velocity after replaying a trace, starting from `v0`. -/
def finalVel (v0 : ℤ) (evs : List Ev) : ℤ :=
  evs.foldl (fun v e => match e with | Ev.setVel w => w | _ => v) v0

/-- Events of `__calibrate_board` for the single configured board row. -/
def calibrateTrace : List Ev :=
  [Ev.movePos Pos.boardApproach]
    ++ slowWrap [Ev.movePos Pos.boardDrop, Ev.promptOperator, Ev.movePos Pos.boardApproach]
    ++ [Ev.movePos Pos.home]

/-- State effect of `__calibrate_board`. -/
def calibrateState (s : RobotState) : RobotState := { s with board_calibrated := true }

/-- Events of the one-time magazine placement phase of `set_up_game`. -/
def magSetupTrace : List Ev :=
  [Ev.movePos Pos.magBef, Ev.movePos Pos.mag, Ev.promptOperator, Ev.movePos Pos.home]

/-- State effect of the magazine placement phase (lines 143-153). -/
def setupPreState (s : RobotState) : RobotState :=
  if s.magazine_ready then s else { s with magazine_ready := true }

/-- Events of the magazine placement phase. -/
def setupPreTrace (s : RobotState) : List Ev :=
  if s.magazine_ready then [] else magSetupTrace

/-- State after one loop iteration of `set_up_game` up to and including the
locked placement (lines 156-187): the piece counter is incremented, the
board is calibrated on the first pass, and the stack counter is
incremented inside the belt-lock section. -/
def placeState (s : RobotState) : RobotState :=
  let s1 : RobotState := { s with current_piece_count := s.current_piece_count + 1 }
  let s2 : RobotState := if s1.board_calibrated then s1 else calibrateState s1
  { s2 with current_stack_count := s2.current_stack_count + 1 }

/-- The post-lock bookkeeping of a `set_up_game` iteration (lines 190-194):
if the stack counter is exactly 2 and pieces remain to load, it is reset
to 0 (and a belt advance is spawned). -/
def resetAfterPlace (target : ℤ) (s : RobotState) : RobotState :=
  if s.current_stack_count = 2 ∧ s.current_piece_count ≠ target then
    { s with current_stack_count := 0 }
  else s

/-- Full state effect of one `set_up_game` loop iteration. -/
def setupIterState (target : ℤ) (s : RobotState) : RobotState :=
  resetAfterPlace target (placeState s)

/-- Event trace of one `set_up_game` loop iteration, in source order. -/
def setupIterTrace (target : ℤ) (s : RobotState) : List Ev :=
  [Ev.setPiece (s.current_piece_count + 1), Ev.movePos Pos.magBef]
    ++ slowWrap [Ev.movePos Pos.mag, Ev.grip GripperAction.CLOSE, Ev.movePos Pos.magBef]
    ++ [Ev.movePos Pos.home]
    ++ (if s.board_calibrated then [] else calibrateTrace)
    ++ [Ev.acquireBelt, Ev.movePos (loadSlotPos s.current_stack_count),
        Ev.setStack (s.current_stack_count + 1), Ev.grip GripperAction.OPEN,
        Ev.movePos Pos.home, Ev.releaseBelt]
    ++ (if s.current_stack_count + 1 = 2 ∧ s.current_piece_count + 1 ≠ target then
          [Ev.setStack 0, Ev.spawnAdvance ConveyorDirection.backward]
        else [])

/-- Exactly `n` iterations of the `set_up_game` loop, with their trace. -/
def setupIters (target : ℤ) : ℕ → RobotState → RobotState × List Ev
  | 0, s => (s, [])
  | n + 1, s =>
    let r := setupIters target n (setupIterState target s)
    (r.1, setupIterTrace target s ++ r.2)

/-- The `while self.__current_piece_count != piece_count` loop of
`set_up_game`, with explicit fuel; `none` means the fuel ran out while the
guard still held. -/
def setupLoop (target : ℤ) : ℕ → RobotState → Option (RobotState × List Ev)
  | 0, s => if s.current_piece_count = target then some (s, []) else none
  | fuel + 1, s =>
    if s.current_piece_count = target then some (s, [])
    else
      (setupLoop target fuel (setupIterState target s)).map
        (fun r => (r.1, setupIterTrace target s ++ r.2))

/-- `set_up_game(piece_count)` in the terminating case: the magazine phase
followed by exactly `piece_count - current_piece_count` loop iterations. -/
def set_up_game (target : ℤ) (s : RobotState) : RobotState × List Ev :=
  let s0 := setupPreState s
  let r := setupIters target (target - s0.current_piece_count).toNat s0
  (r.1, setupPreTrace s ++ r.2)

/-- `set_up_game(piece_count)` with explicit fuel for the loop. -/
def set_up_game_fuel (fuel : ℕ) (target : ℤ) (s : RobotState) :
    Option (RobotState × List Ev) :=
  (setupLoop target fuel (setupPreState s)).map
    (fun r => (r.1, setupPreTrace s ++ r.2))

/-- State effect of `grab_piece` (lines 197-214): no-op when the piece
counter is zero, otherwise decrement both counters inside the lock, then
set the stack counter to 2 and spawn a forward belt advance when the
stack emptied with pieces remaining. -/
def grab_piece (s : RobotState) : RobotState :=
  if s.current_piece_count = 0 then s
  else if s.current_stack_count - 1 = 0 ∧ s.current_piece_count - 1 ≠ 0 then
    { s with current_stack_count := 2,
             current_piece_count := s.current_piece_count - 1 }
  else
    { s with current_stack_count := s.current_stack_count - 1,
             current_piece_count := s.current_piece_count - 1 }

/-- Event trace of `grab_piece`, in source order. -/
def grabPieceTrace (s : RobotState) : List Ev :=
  if s.current_piece_count = 0 then []
  else
    [Ev.acquireBelt, Ev.movePos (grabSlotPos s.current_stack_count),
     Ev.grip GripperAction.CLOSE, Ev.movePos Pos.home,
     Ev.setStack (s.current_stack_count - 1),
     Ev.setPiece (s.current_piece_count - 1), Ev.releaseBelt]
      ++ (if s.current_stack_count - 1 = 0 ∧ s.current_piece_count - 1 ≠ 0 then
            [Ev.setStack 2, Ev.spawnAdvance ConveyorDirection.forward]
          else [])

/-- Iterated `grab_piece`. -/
def grabN : ℕ → RobotState → RobotState
  | 0, s => s
  | n + 1, s => grabN n (grab_piece s)

/-- Event trace of `__move_pieces_on_belt` (lines 231-245): the conveyor
run/stop pair and the 2.5-second settle wait, all inside the belt lock. -/
def move_pieces_on_belt (d : ConveyorDirection) : List Ev :=
  [Ev.acquireBelt, Ev.conveyorRun d, Ev.settleWait, Ev.conveyorStop, Ev.releaseBelt]

/-- Outcome of one invocation of a driver capability. -/
inductive CallOutcome
  | success (v : ℕ)
  | rosTimeout
  | typeError
  | otherError
deriving DecidableEq

/-- Log messages emitted by `__execute_robot_action`. -/
inductive LogMsg
  | warnTimeout
  | critContract
deriving DecidableEq

/-- How `__execute_robot_action` finishes. -/
inductive ExecResult
  | ok (v : ℕ)
  | raisedTypeError
  | raisedOther
deriving DecidableEq

/-- The retry loop of `__execute_robot_action` (lines 248-269), with fuel:
invocation `k` has outcome `beh k`; a success returns, a `TypeError` is
logged critical and re-raised, any other error propagates uncaught, and a
`RosTimeoutError` logs a warning and retries.  Returns the final result,
the number of invocations made, and the log messages, or `none` if the
fuel ran out while still retrying. -/
def execAux (beh : ℕ → CallOutcome) : ℕ → ℕ → Option (ExecResult × ℕ × List LogMsg)
  | 0, _ => none
  | fuel + 1, k =>
    match beh k with
    | CallOutcome.success v => some (ExecResult.ok v, 1, [])
    | CallOutcome.typeError => some (ExecResult.raisedTypeError, 1, [LogMsg.critContract])
    | CallOutcome.otherError => some (ExecResult.raisedOther, 1, [])
    | CallOutcome.rosTimeout =>
      (execAux beh fuel (k + 1)).map
        (fun r => (r.1, r.2.1 + 1, LogMsg.warnTimeout :: r.2.2))

/-- `__execute_robot_action` starting at the first invocation. -/
def execute_robot_action (beh : ℕ → CallOutcome) (fuel : ℕ) :
    Option (ExecResult × ℕ × List LogMsg) :=
  execAux beh fuel 0

/-- The fault-recovery loop of `__control_gripper` (lines 285-294), with
fuel: `st k` is the value of `hardware_errors[7]` at the `k`-th read; one
`update_tool` reinitialize is issued per non-zero read.  Returns the
number of reinitializes issued before a zero read. -/
def gripLoop (st : ℕ → ℤ) : ℕ → ℕ → Option ℕ
  | 0, k => if st k = 0 then some 0 else none
  | fuel + 1, k =>
    if st k = 0 then some 0
    else (gripLoop st fuel (k + 1)).map (fun n => n + 1)

/-- `__control_gripper` (lines 283-305): when the status slot is absent
(`IndexError`), the check is skipped; otherwise the recovery loop runs
until the status clears.  Returns the reinitialize count and the grip
action finally issued. -/
def control_gripper (slotPresent : Bool) (st : ℕ → ℤ) (action : GripperAction)
    (fuel : ℕ) : Option (ℕ × GripperAction) :=
  if slotPresent then (gripLoop st fuel 0).map (fun n => (n, action))
  else some (0, action)

/-- Change of belt-lock depth caused by an event. -/
def lockDelta : Ev → ℤ
  | Ev.acquireBelt => 1
  | Ev.releaseBelt => -1
  | _ => 0

/-- True when the list starts with a belt-advance thread spawn. -/
def isSpawnHead : List Ev → Bool
  | Ev.spawnAdvance _ :: _ => true
  | _ => false

/-- The strict discipline the claim states: every staged-count mutation
and every conveyor run/settle/stop happens while the belt lock is held. -/
def strictOKAt (d : ℤ) (e : Ev) : Bool :=
  match e with
  | Ev.setStack _ => decide (0 < d)
  | Ev.conveyorRun _ => decide (0 < d)
  | Ev.settleWait => decide (0 < d)
  | Ev.conveyorStop => decide (0 < d)
  | _ => true

/-- Check `strictOKAt` along a trace, tracking the lock depth. -/
def strictLockDiscipline (d : ℤ) : List Ev → Bool
  | [] => true
  | e :: r => strictOKAt d e && strictLockDiscipline (d + lockDelta e) r

/-- The discipline the source actually implements: conveyor operations
are always locked, and a staged-count mutation is either locked or is the
post-release reset immediately followed by spawning the advance thread. -/
def relaxedOKAt (d : ℤ) (e : Ev) (rest : List Ev) : Bool :=
  match e with
  | Ev.setStack _ => decide (0 < d) || isSpawnHead rest
  | Ev.conveyorRun _ => decide (0 < d)
  | Ev.settleWait => decide (0 < d)
  | Ev.conveyorStop => decide (0 < d)
  | _ => true

/-- Check `relaxedOKAt` along a trace, tracking the lock depth. -/
def relaxedLockDiscipline (d : ℤ) : List Ev → Bool
  | [] => true
  | e :: r => relaxedOKAt d e r && relaxedLockDiscipline (d + lockDelta e) r

/-- True for a belt-advance thread spawn event. -/
def isSpawnEvent : Ev → Bool
  | Ev.spawnAdvance _ => true
  | _ => false

/-- Number of belt-advance threads spawned in a trace. -/
def countSpawns (l : List Ev) : ℕ := (l.filter isSpawnEvent).length

/-- Number of placement cycles in a trace (one belt-lock acquisition per
placement in `set_up_game`). -/
def countPlacements (l : List Ev) : ℕ :=
  (l.filter (fun e => decide (e = Ev.acquireBelt))).length

/-- Control points of the foreground thread: idle between API calls, at
the `set_up_game` loop head, or between the locked placement and the
post-lock reset check of an iteration. -/
inductive Config
  | idle (s : RobotState)
  | loopHead (target : ℤ) (s : RobotState)
  | placed (target : ℤ) (s : RobotState)

/-- Session state carried by a control point. -/
def Config.state : Config → RobotState
  | Config.idle s => s
  | Config.loopHead _ s => s
  | Config.placed _ s => s

/-- Small-step transitions generated by the public API exactly as the
claim quantifies them: any `set_up_game` call and any `grab_piece` call. -/
inductive Step : Config → Config → Prop
  | startSetup (target : ℤ) (s : RobotState) :
      Step (Config.idle s) (Config.loopHead target (setupPreState s))
  | iterate {target : ℤ} {s : RobotState} :
      s.current_piece_count ≠ target →
      Step (Config.loopHead target s) (Config.placed target (placeState s))
  | settle (target : ℤ) (s : RobotState) :
      Step (Config.placed target s) (Config.loopHead target (resetAfterPlace target s))
  | finish {target : ℤ} {s : RobotState} :
      s.current_piece_count = target →
      Step (Config.loopHead target s) (Config.idle s)
  | grab (s : RobotState) :
      Step (Config.idle s) (Config.idle (grab_piece s))

/-- Configurations reachable from a fresh session. -/
inductive Reaches : Config → Prop
  | init : Reaches (Config.idle freshState)
  | step {c c' : Config} : Reaches c → Step c c' → Reaches c'

/-- Guarded transitions: like `Step`, but a `set_up_game` call may only
start from a staged count of at most 1. -/
inductive StepG : Config → Config → Prop
  | startSetup {s : RobotState} (target : ℤ) :
      s.current_stack_count ≤ 1 →
      StepG (Config.idle s) (Config.loopHead target (setupPreState s))
  | iterate {target : ℤ} {s : RobotState} :
      s.current_piece_count ≠ target →
      StepG (Config.loopHead target s) (Config.placed target (placeState s))
  | settle (target : ℤ) (s : RobotState) :
      StepG (Config.placed target s) (Config.loopHead target (resetAfterPlace target s))
  | finish {target : ℤ} {s : RobotState} :
      s.current_piece_count = target →
      StepG (Config.loopHead target s) (Config.idle s)
  | grab (s : RobotState) :
      StepG (Config.idle s) (Config.idle (grab_piece s))

/-- Configurations reachable from a fresh session through guarded steps. -/
inductive ReachesG : Config → Prop
  | init : ReachesG (Config.idle freshState)
  | step {c c' : Config} : ReachesG c → StepG c c' → ReachesG c'

/-- Inductive invariant for the guarded machine. -/
def configInv : Config → Prop
  | Config.idle s =>
      0 ≤ s.current_piece_count ∧ 0 ≤ s.current_stack_count ∧
        s.current_stack_count ≤ 2 ∧
        (s.current_stack_count = 0 → s.current_piece_count = 0)
  | Config.loopHead target s =>
      0 ≤ s.current_piece_count ∧ 0 ≤ s.current_stack_count ∧
        s.current_stack_count ≤ 2 ∧
        (s.current_piece_count ≠ target → s.current_stack_count ≤ 1) ∧
        (s.current_piece_count = target →
          (s.current_stack_count = 0 → s.current_piece_count = 0))
  | Config.placed _ s =>
      0 ≤ s.current_piece_count ∧ 1 ≤ s.current_stack_count ∧
        s.current_stack_count ≤ 2

/-- State invariant linking the two counters after whole API operations of
a single-load session: both zero, or an odd piece count with one staged
piece, or a positive even piece count with two staged pieces. -/
def GInv (s : RobotState) : Prop :=
  (s.current_piece_count = 0 ∧ s.current_stack_count = 0) ∨
  (s.current_piece_count % 2 = 1 ∧ s.current_stack_count = 1) ∨
  (s.current_piece_count % 2 = 0 ∧ 0 < s.current_piece_count ∧
    s.current_stack_count = 2)

/-! Projection lemmas for the state functions. -/

lemma placeState_piece (s : RobotState) :
    (placeState s).current_piece_count = s.current_piece_count + 1 := by
  cases hb : s.board_calibrated <;> simp [placeState, calibrateState, hb]

lemma placeState_stack (s : RobotState) :
    (placeState s).current_stack_count = s.current_stack_count + 1 := by
  cases hb : s.board_calibrated <;> simp [placeState, calibrateState, hb]

lemma setupIterState_piece (target : ℤ) (s : RobotState) :
    (setupIterState target s).current_piece_count = s.current_piece_count + 1 := by
  unfold setupIterState resetAfterPlace
  split <;> simp [placeState_piece]

lemma setupIterState_stack (target : ℤ) (s : RobotState) :
    (setupIterState target s).current_stack_count =
      if s.current_stack_count + 1 = 2 ∧ s.current_piece_count + 1 ≠ target then 0
      else s.current_stack_count + 1 := by
  unfold setupIterState resetAfterPlace
  simp only [placeState_stack, placeState_piece]
  split <;> simp [placeState_stack]

lemma setupPreState_piece (s : RobotState) :
    (setupPreState s).current_piece_count = s.current_piece_count := by
  unfold setupPreState
  split <;> rfl

lemma setupPreState_stack (s : RobotState) :
    (setupPreState s).current_stack_count = s.current_stack_count := by
  unfold setupPreState
  split <;> rfl

/-! Lemmas about the setup loop. -/

lemma setupLoop_none_of_lt (target : ℤ) :
    ∀ (fuel : ℕ) (s : RobotState), target < s.current_piece_count →
      setupLoop target fuel s = none := by
  intro fuel
  induction fuel with
  | zero =>
      intro s h
      simp only [setupLoop]
      rw [if_neg (by omega)]
  | succ f ih =>
      intro s h
      simp only [setupLoop]
      rw [if_neg (by omega), ih _ (by rw [setupIterState_piece]; omega)]
      rfl

lemma setupLoop_eq_iters (target : ℤ) :
    ∀ (n : ℕ) (s : RobotState), s.current_piece_count + (n : ℤ) = target →
      setupLoop target n s = some (setupIters target n s) := by
  intro n
  induction n with
  | zero =>
      intro s h
      simp only [setupLoop, setupIters]
      rw [if_pos (by push_cast at h; omega)]
  | succ n ih =>
      intro s h
      have hne : s.current_piece_count ≠ target := by push_cast at h; omega
      simp only [setupLoop, setupIters]
      rw [if_neg hne, ih _ (by rw [setupIterState_piece]; push_cast at h ⊢; omega)]
      rfl

lemma setupIters_piece (target : ℤ) :
    ∀ (n : ℕ) (s : RobotState),
      (setupIters target n s).1.current_piece_count = s.current_piece_count + (n : ℤ) := by
  intro n
  induction n with
  | zero => intro s; simp [setupIters]
  | succ n ih =>
      intro s
      simp only [setupIters]
      rw [ih, setupIterState_piece]
      push_cast
      ring

/-! Lemmas about the counter invariant of a single-load session. -/

lemma setup_GInv (target : ℤ) :
    ∀ (n : ℕ) (s : RobotState), 0 ≤ s.current_piece_count →
      s.current_piece_count + (n : ℤ) = target →
      s.current_stack_count = s.current_piece_count % 2 →
      (n = 0 ∧ (setupIters target n s).1 = s) ∨ GInv (setupIters target n s).1 := by
  intro n
  induction n with
  | zero => intro s _ _ _; exact Or.inl ⟨rfl, rfl⟩
  | succ n ih =>
      intro s h0 hsum hstack
      right
      by_cases hlast : s.current_piece_count + 1 = target
      · have hn : n = 0 := by push_cast at hsum; omega
        subst hn
        simp only [setupIters]
        unfold GInv
        rw [setupIterState_piece, setupIterState_stack,
          if_neg (by push_neg; intro _; omega)]
        omega
      · have h1 := ih (setupIterState target s)
          (by rw [setupIterState_piece]; omega)
          (by rw [setupIterState_piece]; push_cast at hsum ⊢; omega)
          (by rw [setupIterState_stack, setupIterState_piece]
              split_ifs with hc
              · omega
              · omega)
        rcases h1 with ⟨hn0, _⟩ | hG
        · exfalso
          push_cast at hsum
          omega
        · simpa [setupIters] using hG

lemma grab_GInv (s : RobotState) (h : GInv s) (hp : 0 < s.current_piece_count) :
    GInv (grab_piece s) ∧
      (grab_piece s).current_piece_count = s.current_piece_count - 1 := by
  unfold grab_piece
  rw [if_neg (by omega)]
  unfold GInv at h ⊢
  split_ifs with hc <;> simp only at hc ⊢ <;> simp <;> omega

lemma grabN_drain :
    ∀ (k : ℕ) (s : RobotState), GInv s → s.current_piece_count = (k : ℤ) →
      (grabN k s).current_piece_count = 0 ∧ (grabN k s).current_stack_count = 0 := by
  intro k
  induction k with
  | zero =>
      intro s h hk
      push_cast at hk
      have hst : s.current_stack_count = 0 := by
        rcases h with ⟨h1, h2⟩ | ⟨h1, h2⟩ | ⟨h1, h2, h3⟩ <;> omega
      exact ⟨by simpa [grabN] using hk, by simpa [grabN] using hst⟩
  | succ k ih =>
      intro s h hk
      have hp : 0 < s.current_piece_count := by push_cast at hk; omega
      obtain ⟨hg, hpc⟩ := grab_GInv s h hp
      have hr := ih (grab_piece s) hg (by rw [hpc]; push_cast at hk ⊢; omega)
      simpa [grabN] using hr

/-! Invariant proof for the guarded step machine. -/

lemma reachesG_configInv : ∀ (c : Config), ReachesG c → configInv c := by
  intro c h
  induction h with
  | init => exact ⟨by decide, by decide, by decide, fun _ => rfl⟩
  | step hr hs ih =>
      cases hs with
      | startSetup target hguard =>
          simp only [configInv] at ih ⊢
          rw [setupPreState_piece, setupPreState_stack]
          omega
      | iterate hne =>
          simp only [configInv] at ih ⊢
          rw [placeState_piece, placeState_stack]
          omega
      | settle target s =>
          simp only [configInv] at ih ⊢
          unfold resetAfterPlace
          split_ifs with hc <;> (try simp) <;> omega
      | finish heq =>
          simp only [configInv] at ih ⊢
          omega
      | grab s =>
          simp only [configInv] at ih ⊢
          unfold grab_piece
          split_ifs with h0 hc <;> (try simp) <;> omega

/-! C1.  The claim quantifies over every sequence of load and grab
operations; the code violates it (a second `set_up_game` entering with a
full stage pushes the stack counter to 3), and the guarded variant holds. -/

/-- C1 counterexample: calling `set_up_game(2)` and then `set_up_game(3)`
from a fresh session drives `__current_stack_count` to 3, outside
{0,1,2}, refuting the claim for arbitrary operation sequences. -/
theorem stack_overflow_counterexample :
    Reaches (Config.idle ⟨3, 3, true, true⟩) ∧
      ¬ ((⟨3, 3, true, true⟩ : RobotState).current_stack_count ≤ 2) := by
  constructor
  · have h0 : Reaches (Config.idle freshState) := Reaches.init
    have h1 : Reaches (Config.loopHead 2 ⟨0, 0, false, true⟩) :=
      h0.step (Step.startSetup 2 freshState)
    have h2 : Reaches (Config.placed 2 ⟨1, 1, true, true⟩) :=
      h1.step (Step.iterate (by decide))
    have h3 : Reaches (Config.loopHead 2 ⟨1, 1, true, true⟩) :=
      h2.step (Step.settle 2 ⟨1, 1, true, true⟩)
    have h4 : Reaches (Config.placed 2 ⟨2, 2, true, true⟩) :=
      h3.step (Step.iterate (by decide))
    have h5 : Reaches (Config.loopHead 2 ⟨2, 2, true, true⟩) :=
      h4.step (Step.settle 2 ⟨2, 2, true, true⟩)
    have h6 : Reaches (Config.idle ⟨2, 2, true, true⟩) :=
      h5.step (Step.finish (by decide))
    have h7 : Reaches (Config.loopHead 3 ⟨2, 2, true, true⟩) :=
      h6.step (Step.startSetup 3 ⟨2, 2, true, true⟩)
    have h8 : Reaches (Config.placed 3 ⟨3, 3, true, true⟩) :=
      h7.step (Step.iterate (by decide))
    have h9 : Reaches (Config.loopHead 3 ⟨3, 3, true, true⟩) :=
      h8.step (Step.settle 3 ⟨3, 3, true, true⟩)
    exact h9.step (Step.finish (by decide))
  · decide

/-- C1 (amended): along every sequence of load and grab operations in
which each `set_up_game` call starts from a staged count of at most 1
(in particular a single load followed by any grabs), the staged-piece
count `__current_stack_count` stays in {0,1,2} at every control point,
including inside the load loop, and never goes negative. -/
theorem stack_invariant_guarded (c : Config) (h : ReachesG c) :
    0 ≤ c.state.current_stack_count ∧ c.state.current_stack_count ≤ 2 := by
  have hinv := reachesG_configInv c h
  cases c <;> simp only [configInv, Config.state] at hinv ⊢ <;> omega

/-- C1 witness: the invariant applied to the initial configuration. -/
theorem stack_invariant_guarded_witness :
    0 ≤ (Config.idle freshState).state.current_stack_count ∧
      (Config.idle freshState).state.current_stack_count ≤ 2 :=
  stack_invariant_guarded (Config.idle freshState) ReachesG.init

/-- C3: for every N, loading N pieces from a fresh session with
`set_up_game(N)` and then calling `grab_piece()` N times returns both
counters, `__current_piece_count` and `__current_stack_count`, to 0. -/
theorem load_then_drain (N : ℕ) :
    (grabN N (set_up_game (N : ℤ) freshState).1).current_piece_count = 0 ∧
      (grabN N (set_up_game (N : ℤ) freshState).1).current_stack_count = 0 := by
  have hpre : setupPreState freshState = ⟨0, 0, false, true⟩ := rfl
  have hrun : (set_up_game (N : ℤ) freshState).1
      = (setupIters (N : ℤ) N ⟨0, 0, false, true⟩).1 := by
    rw [set_up_game, hpre]
    norm_num
  rw [hrun]
  have hG := setup_GInv (N : ℤ) N ⟨0, 0, false, true⟩ (by norm_num) (by norm_num) (by norm_num)
  rcases hG with ⟨hn0, hres⟩ | hG
  · subst hn0
    rw [hres]
    exact ⟨rfl, rfl⟩
  · refine grabN_drain N _ hG ?_
    rw [setupIters_piece]
    norm_num

/-- C10: under a fault-free driver and operator confirmations,
`set_up_game(target)` terminates (some fuel suffices for its while loop)
exactly when the target is at least the session's current total piece
count; with a strictly smaller target the loop guard never clears. -/
theorem setup_termination_iff (s : RobotState) (target : ℤ) :
    (∃ fuel r, set_up_game_fuel fuel target s = some r) ↔
      s.current_piece_count ≤ target := by
  constructor
  · rintro ⟨fuel, r, hr⟩
    by_contra hgt
    push_neg at hgt
    have hnone : setupLoop target fuel (setupPreState s) = none :=
      setupLoop_none_of_lt target fuel _ (by rw [setupPreState_piece]; omega)
    rw [set_up_game_fuel, hnone] at hr
    simp at hr
  · intro hle
    have h1 : setupLoop target (target - s.current_piece_count).toNat (setupPreState s)
        = some (setupIters target (target - s.current_piece_count).toNat
            (setupPreState s)) := by
      apply setupLoop_eq_iters
      rw [setupPreState_piece, Int.toNat_of_nonneg (by omega)]
      ring
    exact ⟨_, _, by rw [set_up_game_fuel, h1]; rfl⟩

/-- C10 witness: from a fresh session, `set_up_game(4)` terminates. -/
theorem setup_termination_iff_witness :
    ∃ fuel r, set_up_game_fuel fuel 4 freshState = some r :=
  (setup_termination_iff freshState 4).mpr (by decide)

/-! Lemmas about the action executor retry loop. -/

lemma execAux_shift (beh : ℕ → CallOutcome) :
    ∀ (N k : ℕ), (∀ j, j < N → beh (k + j) = CallOutcome.rosTimeout) →
      execAux beh (N + 1) k =
        (execAux beh 1 (k + N)).map
          (fun r => (r.1, r.2.1 + N, List.replicate N LogMsg.warnTimeout ++ r.2.2)) := by
  intro N
  induction N with
  | zero =>
      intro k _
      cases h1 : execAux beh 1 k <;> simp [h1]
  | succ N ih =>
      intro k hto
      have hk : beh k = CallOutcome.rosTimeout := by simpa using hto 0 (Nat.succ_pos N)
      have hsh : k + 1 + N = k + (N + 1) := by omega
      have hstep : execAux beh (N + 1 + 1) k
          = (execAux beh (N + 1) (k + 1)).map
              (fun r => (r.1, r.2.1 + 1, LogMsg.warnTimeout :: r.2.2)) := by
        conv_lhs => rw [execAux.eq_def]
        simp [hk]
      rw [hstep, ih (k + 1) (fun j hj => by
        have hjj := hto (j + 1) (by omega)
        simpa [show k + (j + 1) = k + 1 + j from by omega] using hjj)]
      rw [hsh]
      cases h1 : execAux beh 1 (k + (N + 1)) with
      | none => simp
      | some r => simp [List.replicate_succ, Nat.add_assoc]

/-- C2: the Action Executor `__execute_robot_action` retries exactly on
the transient-timeout kind: after N transient timeouts, a success on the
next invocation yields the success value with exactly N+1 invocations and
N retry warnings; a malformed-invocation `TypeError` is logged critical
and propagates immediately with no further invocation; any other failure
propagates immediately with no further invocation. -/
theorem executor_retry_policy (beh : ℕ → CallOutcome) (N : ℕ) (v : ℕ)
    (hto : ∀ j, j < N → beh j = CallOutcome.rosTimeout) :
    (beh N = CallOutcome.success v →
      execute_robot_action beh (N + 1)
        = some (ExecResult.ok v, N + 1, List.replicate N LogMsg.warnTimeout)) ∧
    (beh N = CallOutcome.typeError →
      execute_robot_action beh (N + 1)
        = some (ExecResult.raisedTypeError, N + 1,
            List.replicate N LogMsg.warnTimeout ++ [LogMsg.critContract])) ∧
    (beh N = CallOutcome.otherError →
      execute_robot_action beh (N + 1)
        = some (ExecResult.raisedOther, N + 1, List.replicate N LogMsg.warnTimeout)) := by
  have hsh := execAux_shift beh N 0 (fun j hj => by simpa using hto j hj)
  refine ⟨?_, ?_, ?_⟩ <;> intro hN <;>
    · rw [execute_robot_action, hsh]
      simp [execAux, hN, Nat.add_comm]

/-- C2 witness: two transient timeouts then a success gives the success
value after exactly three invocations and two warnings. -/
theorem executor_retry_policy_witness :
    execute_robot_action
        (fun k => if k < 2 then CallOutcome.rosTimeout else CallOutcome.success 7) 3
      = some (ExecResult.ok 7, 3, List.replicate 2 LogMsg.warnTimeout) :=
  (executor_retry_policy
    (fun k => if k < 2 then CallOutcome.rosTimeout else CallOutcome.success 7) 2 7
    (by decide)).1 (by decide)

/-! Lemma about the gripper fault-recovery loop. -/

lemma gripLoop_run (st : ℕ → ℤ) :
    ∀ (n k : ℕ), (∀ j, j < n → st (k + j) ≠ 0) → st (k + n) = 0 →
      gripLoop st n k = some n := by
  intro n
  induction n with
  | zero =>
      intro k _ h0
      simp only [gripLoop]
      rw [if_pos (by simpa using h0)]
  | succ n ih =>
      intro k hn h0
      have hk : st k ≠ 0 := by simpa using hn 0 (Nat.succ_pos n)
      simp only [gripLoop]
      rw [if_neg hk, ih (k + 1)
        (fun j hj => by
          have hjj := hn (j + 1) (by omega)
          simpa [show k + (j + 1) = k + 1 + j from by omega] using hjj)
        (by
          have : k + 1 + n = k + (n + 1) := by omega
          rw [this]
          exact h0)]
      rfl

/-- C8: `__control_gripper` reads the hardware status slot before every
grip action; when the slot is absent the check is skipped and the action
issued with zero reinitializes, and otherwise exactly one tool
reinitialize is issued per non-zero status read before the requested
action — in particular a status reading non-zero n times then zero causes
exactly n reinitialize calls. -/
theorem gripper_recovery_counts (st : ℕ → ℤ) (action : GripperAction) (n : ℕ)
    (hnz : ∀ j, j < n → st j ≠ 0) (hz : st n = 0) :
    control_gripper true st action n = some (n, action) ∧
      control_gripper false st action 0 = some (0, action) := by
  constructor
  · rw [control_gripper, if_pos rfl,
      gripLoop_run st n 0 (by simpa using hnz) (by simpa using hz)]
    rfl
  · rfl

/-- C8 witness: a status reporting non-zero twice then zero causes
exactly two reinitialize calls before the grip action. -/
theorem gripper_recovery_counts_witness :
    control_gripper true (fun k => if k < 2 then 1 else 0) GripperAction.OPEN 2
      = some (2, GripperAction.OPEN) :=
  (gripper_recovery_counts (fun k => if k < 2 then 1 else 0) GripperAction.OPEN 2
    (by decide) (by decide)).1

/-- C9: the scoped slow mode `__slow_arm_control` first sets the arm max
velocity to the supplied slow value, and on every exit path — whatever
events the body performed and whether it returned normally or raised any
failure, including a contract fault — the arm velocity after the scope is
100, with the body's outcome propagated unchanged. -/
theorem slow_mode_restores {α : Type} (slow_speed v0 : ℤ) (body : BodyRun α) :
    finalVel v0 (slow_arm_control slow_speed body).events = 100 ∧
      (slow_arm_control slow_speed body).events.head? = some (Ev.setVel slow_speed) ∧
      (slow_arm_control slow_speed body).result = body.result := by
  refine ⟨?_, rfl, rfl⟩
  simp [finalVel, slow_arm_control, List.foldl_append]

/-- C7: `grab_piece` with a zero total piece count is a no-op: the state
is unchanged and no hardware event at all is issued. -/
theorem grab_noop_when_empty (s : RobotState) (h : s.current_piece_count = 0) :
    grab_piece s = s ∧ grabPieceTrace s = [] := by
  constructor
  · rw [grab_piece, if_pos h]
  · rw [grabPieceTrace, if_pos h]

/-- C7 witness: the no-op at the fresh session state. -/
theorem grab_noop_when_empty_witness :
    grab_piece freshState = freshState ∧ grabPieceTrace freshState = [] :=
  grab_noop_when_empty freshState rfl

/-- C6: slot selection is the deterministic occupancy rule of the source:
placement targets slot 0 exactly when nothing is staged and slot 1
otherwise, pickup targets slot 0 exactly when one piece remains staged
and slot 1 otherwise, and in every reachable counter state of a session
(the `GInv` states) a pickup with pieces available targets a slot index
strictly below the staged count — an occupied slot, slots filling 0
before 1. -/
theorem slot_selection_rule :
    (loadTargetSlot 0 = 0 ∧ (∀ z : ℤ, z ≠ 0 → loadTargetSlot z = 1) ∧
      grabTargetSlot 1 = 0 ∧ (∀ z : ℤ, z ≠ 1 → grabTargetSlot z = 1)) ∧
    (∀ s : RobotState, GInv s → s.current_piece_count ≠ 0 →
      0 ≤ grabTargetSlot s.current_stack_count ∧
        grabTargetSlot s.current_stack_count < s.current_stack_count) := by
  refine ⟨⟨rfl, ?_, rfl, ?_⟩, ?_⟩
  · intro z hz
    rw [loadTargetSlot, if_neg hz]
  · intro z hz
    rw [grabTargetSlot, if_neg hz]
  · intro s hG hp
    rcases hG with ⟨h1, h2⟩ | ⟨h1, h2⟩ | ⟨h1, h2, h3⟩
    · exact absurd h1 hp
    · rw [h2]
      norm_num [grabTargetSlot]
    · rw [h3]
      norm_num [grabTargetSlot]

/-- C6 witness: with two pieces staged, pickup targets slot 1, which is
occupied. -/
theorem slot_selection_rule_witness :
    0 ≤ grabTargetSlot (⟨2, 2, true, true⟩ : RobotState).current_stack_count ∧
      grabTargetSlot (⟨2, 2, true, true⟩ : RobotState).current_stack_count
        < (⟨2, 2, true, true⟩ : RobotState).current_stack_count :=
  slot_selection_rule.2 ⟨2, 2, true, true⟩ (by unfold GInv; decide) (by decide)

/-- C4 counterexample: the claim that every staged-count mutation in
`grab_piece` happens with the belt lock held fails — the refill
assignment to 2 at source line 212 happens after the lock is released. -/
theorem lock_discipline_counterexample :
    strictLockDiscipline 0 (grabPieceTrace ⟨2, 1, true, true⟩) = false := by decide

/-- C4 (amended): the conveyor run, the 2.5-time-unit settle wait and the
conveyor stop of `__move_pieces_on_belt` all happen with the belt lock
held, and every staged-count mutation of `set_up_game` and `grab_piece`
happens with the lock held except the post-release stage reset (to 0 in
load, to 2 in grab) performed immediately before spawning the belt
advance thread. -/
theorem lock_discipline_amended :
    (∀ d : ConveyorDirection, strictLockDiscipline 0 (move_pieces_on_belt d) = true) ∧
    (∀ s : RobotState, relaxedLockDiscipline 0 (grabPieceTrace s) = true) ∧
    (∀ (target : ℤ) (s : RobotState),
      relaxedLockDiscipline 0 (setupIterTrace target s) = true) ∧
    relaxedLockDiscipline 0 (set_up_game 21 freshState).2 = true := by
  refine ⟨fun d => rfl, ?_, ?_, by decide⟩
  · intro s
    rw [grabPieceTrace]
    split
    · rfl
    · split <;> rfl
  · intro target s
    rw [setupIterTrace]
    split <;> split <;> rfl

/-- C5 counterexample: `set_up_game(4)` from a fresh session spawns one
belt advance, not two, and ends with two pieces staged, not zero. -/
theorem setup_four_counterexample :
    ¬ (countSpawns (set_up_game 4 freshState).2 = 2 ∧
        (set_up_game 4 freshState).1.current_stack_count = 0) := by decide

/-- C5 (amended): `set_up_game(4)` from a fresh session with an
always-succeeding driver performs exactly 4 placement cycles and exactly
1 simulated belt advance — already spawned within the first two
placements (after piece 2) and none after piece 4 — ending with
`__current_piece_count = 4` and `__current_stack_count = 2`. -/
theorem setup_four_run :
    countPlacements (set_up_game 4 freshState).2 = 4 ∧
      countSpawns (set_up_game 4 freshState).2 = 1 ∧
      countSpawns (setupIters 4 2 (setupPreState freshState)).2 = 1 ∧
      countSpawns (setupIters 4 4 (setupPreState freshState)).2 = 1 ∧
      (set_up_game 4 freshState).1 = ⟨4, 2, true, true⟩ := by decide

end C4Robot
